import Mathlib

/-!
Shallow embedding of the core of the GITGAME shared utility modules:
the adaptive performance governor (`src/shared-performance.js`) and the
unified input/gesture engine (`src/unnamed/part_003`,
class `SharedInputManager`).

JavaScript numbers are modelled as rationals (`ℚ`); a number that may be
NaN is modelled as `Option ℚ`, with `none` standing for NaN (every
`<`/`>` comparison against NaN is false in JavaScript, which the
definitions below reproduce explicitly).
-/

namespace GitGame

/-- Rendering-quality tier: the value of `this.qualityLevel` while the
governor is in one of its three concrete tiers (`'low'`, `'medium'`,
`'high'` in `shared-performance.js`). -/
inductive Quality
  | low
  | medium
  | high
  deriving DecidableEq, Repr

/-- The tier-transition logic of `SharedPerformanceManager.adjustQuality`
(`src/shared-performance.js` lines 117-127), as a function of the average
FPS (`this.currentFPS`) and the current tier. The `none` case models a NaN
average: in JavaScript `NaN < 45` and `NaN > 55` are both false, so the
tier is left unchanged. -/
def adjustQuality : Option ℚ → Quality → Quality
  | none, q => q
  | some a, q =>
      if a < 45 ∧ q ≠ Quality.low then
        (if q = Quality.high then Quality.medium else Quality.low)
      else if a > 55 ∧ q ≠ Quality.high then
        (if q = Quality.low then Quality.medium else Quality.high)
      else q

/-- One-step downgrade as the spec words it: high→medium→low, low stays. -/
def tierDown : Quality → Quality
  | Quality.high => Quality.medium
  | Quality.medium => Quality.low
  | Quality.low => Quality.low

/-- One-step upgrade as the spec words it: low→medium→high, high stays. -/
def tierUp : Quality → Quality
  | Quality.low => Quality.medium
  | Quality.medium => Quality.high
  | Quality.high => Quality.high

/-- Tier transition exactly as the specification states it: downgrade one
tier when avgFPS < 45, upgrade one tier when avgFPS > 55, otherwise remain
(hysteresis band [45, 55]). Written from the spec text, to be compared
with `adjustQuality`, which is written from the code. -/
def specAdjust (a : ℚ) (q : Quality) : Quality :=
  if a < 45 then tierDown q
  else if 55 < a then tierUp q
  else q

/-- `this.maxHistoryLength` from the constructor of
`SharedPerformanceManager`. -/
def maxHistoryLength : ℕ := 60

/-- `this.targetFPS` from the constructor of `SharedPerformanceManager`. -/
def targetFPS : ℚ := 60

/-- One sample recording, from `monitor` (`src/shared-performance.js`
lines 98-101): `fpsHistory.push(currentFPS)` followed by
`if (length > maxHistoryLength) fpsHistory.shift()`. -/
def record (h : List ℚ) (fps : ℚ) : List ℚ :=
  let h2 := h ++ [fps]
  if h2.length > maxHistoryLength then h2.tail else h2

/-- A whole sequence of recordings, oldest first. -/
def recordAll (h : List ℚ) (samples : List ℚ) : List ℚ :=
  samples.foldl record h

/-- The averaging expression
`fpsHistory.reduce((a, b) => a + b, 0) / fpsHistory.length` used in
`monitor` (line 104) and `getPerformanceStats` (lines 278-280). When the
history is empty this divides 0 by 0, which is NaN in JavaScript; the NaN
outcome is modelled as `none`. -/
def jsAverage (h : List ℚ) : Option ℚ :=
  if h.length = 0 then none else some (h.sum / (h.length : ℚ))

/-- The governor state observed by one periodic evaluation: the current
tier and how many times `notifyCallbacks` has delivered a
performance-change notification so far. -/
structure GovState where
  qualityLevel : Quality
  notifications : ℕ
  deriving DecidableEq, Repr

/-- `SharedPerformanceManager.adjustQuality` (lines 117-134): compute the
new tier, and when it differs from the old one call
`applyQualitySettings()` — which itself calls `notifyCallbacks()` — and
`saveSettings()` (storage is outside this model). -/
def adjustQualityStep (avg : Option ℚ) (s : GovState) : GovState :=
  let q2 := adjustQuality avg s.qualityLevel
  if q2 ≠ s.qualityLevel then
    { qualityLevel := q2, notifications := s.notifications + 1 }
  else
    { s with qualityLevel := q2 }

/-- The periodic evaluation body in `monitor` (lines 109-112), reached
every 60th frame while `adaptiveQuality` holds: `this.adjustQuality()`
followed by an unconditional `this.notifyCallbacks()`. -/
def evalStep (avg : Option ℚ) (s : GovState) : GovState :=
  let s1 := adjustQualityStep avg s
  { s1 with notifications := s1.notifications + 1 }

/-! Event dispatcher of `SharedInputManager` (`src/unnamed/part_003`):
`this.callbacks` is a `Map` from event-name strings to `Set`s of callback
functions. The map is modelled as a total function defaulting to the empty
list (a missing key behaves like an empty set in `triggerCallback` and in
the unsubscribe closure); a JavaScript `Set` is modelled as a
duplicate-free list in insertion order, and callback function identities
as natural numbers. -/

/-- Event kinds are plain strings in the source. -/
abbrev EventKind := String

/-- `Set.add`: appends the element unless it is already present. -/
def setAdd (s : List ℕ) (x : ℕ) : List ℕ :=
  if x ∈ s then s else s ++ [x]

/-- `Set.delete`: removes the element; a no-op when it is absent. -/
def setDelete (s : List ℕ) (x : ℕ) : List ℕ :=
  s.filter (fun y => y ≠ x)

/-- `SharedInputManager.on(event, callback)` (lines 196-209): ensure a set
exists for the event and add the callback to it. The function also returns
an unsubscribe closure whose body is exactly `off event callback` below
(Lean reserves the bare name `on`, hence `onEvent`). -/
def onEvent (reg : EventKind → List ℕ) (event : EventKind) (cb : ℕ) :
    EventKind → List ℕ :=
  fun e => if e = event then setAdd (reg e) cb else reg e

/-- `SharedInputManager.off(event, callback)` (lines 211-216), which is
also the body of the unsubscribe closure returned by `on`: look up the set
for the event and, when it exists, delete the callback from it. -/
def off (reg : EventKind → List ℕ) (event : EventKind) (cb : ℕ) :
    EventKind → List ℕ :=
  fun e => if e = event then setDelete (reg e) cb else reg e

/-- Outcome of invoking one callback: it returns normally or throws, and
in both cases leaves the side-effect state it produced up to that point. -/
inductive CallResult (σ : Type) where
  | ok (s : σ)
  | thrown (s : σ)

/-- The state a callback invocation left behind, whether or not it threw. -/
def CallResult.state {σ : Type} : CallResult σ → σ
  | CallResult.ok s => s
  | CallResult.thrown s => s

/-- The dispatch loop of `SharedInputManager.triggerCallback`
(lines 218-229): `callbacks.forEach(cb => { try { cb(data) } catch
(error) { console.warn(...) } })`. The `thrown` branch continuing with the
next callback is the `catch`: a throwing callback is logged and dispatch
proceeds; nothing propagates to the publisher. -/
def runCallbacksCaught {σ : Type} (run : ℕ → σ → CallResult σ) :
    List ℕ → σ → σ
  | [], s => s
  | cb :: rest, s =>
      match run cb s with
      | CallResult.ok s2 => runCallbacksCaught run rest s2
      | CallResult.thrown s2 => runCallbacksCaught run rest s2

/-- `triggerCallback(event, data)`: look the event up in the registry
(missing key: nothing runs) and dispatch to each registered callback in
insertion order. `run` gives each callback identity its behaviour on the
ambient side-effect state. -/
def triggerCallback {σ : Type} (reg : EventKind → List ℕ)
    (event : EventKind) (run : ℕ → σ → CallResult σ) (s : σ) : σ :=
  runCallbacksCaught run (reg event) s

/-! Input-engine state (`SharedInputManager`). -/

/-- One `PointerContact` record stored in `this.touches`
(lines 77-84). -/
structure Touch where
  id : ℕ
  startX : ℚ
  startY : ℚ
  currentX : ℚ
  currentY : ℚ
  startTime : ℚ
  deriving DecidableEq, Repr

/-- The mutable state of a `SharedInputManager` instance: the key map
(`this.keys`, a `Map` from lowercased key name to pressed flag, in
insertion order), the contact map (`this.touches`), the subscription
registry (`this.callbacks`) and the enabled flag. -/
structure InputState where
  keys : List (String × Bool)
  touches : List (ℕ × Touch)
  callbacks : EventKind → List ℕ
  enabled : Bool

/-- `Map.set` on the key map: overwrite an existing entry in place or
append a new one. -/
def mapSet (m : List (String × Bool)) (k : String) (v : Bool) :
    List (String × Bool) :=
  if m.any (fun p => p.1 = k) then
    m.map (fun p => if p.1 = k then (k, v) else p)
  else m ++ [(k, v)]

/-- `this.keys.get(key) || false`: look the key up, defaulting to not
pressed. -/
def mapGet (m : List (String × Bool)) (k : String) : Bool :=
  match m.find? (fun p => p.1 = k) with
  | some p => p.2
  | none => false

/-- `isKeyPressed(key)` (lines 177-179): lowercase the argument and look
it up. -/
def isKeyPressed (s : InputState) (key : String) : Bool :=
  mapGet s.keys key.toLower

/-- `getPressedKeys()` (lines 181-185): the names of the entries whose
flag is set. -/
def getPressedKeys (s : InputState) : List String :=
  (s.keys.filter (fun p => p.2)).map (fun p => p.1)

/-- The `keydown` document listener (lines 24-43): when enabled, mark the
lowercased key pressed and trigger the `keydown` callbacks. The second
component is the list of callback events the handler triggers. -/
def handleKeydown (s : InputState) (key : String) :
    InputState × List (EventKind × String) :=
  if s.enabled then
    let k := key.toLower
    ({ s with keys := mapSet s.keys k true }, [("keydown", k)])
  else (s, [])

/-- The `keyup` document listener (lines 45-56): when enabled, mark the
lowercased key released and trigger the `keyup` callbacks. -/
def handleKeyup (s : InputState) (key : String) :
    InputState × List (EventKind × String) :=
  if s.enabled then
    let k := key.toLower
    ({ s with keys := mapSet s.keys k false }, [("keyup", k)])
  else (s, [])

/-- The window `blur` listener (lines 58-61): `this.keys.clear()` and
nothing else — no enabled check, no callback triggered, touches and
subscriptions untouched. -/
def handleBlur (s : InputState) : InputState × List (EventKind × String) :=
  ({ s with keys := [] }, [])

/-! Gesture classification (`SharedInputManager`). -/

/-- `this.gestureThresholds` (lines 169-173). -/
structure GestureThresholds where
  minSwipeDistance : ℚ
  maxSwipeTime : ℚ
  minSwipeVelocity : ℚ
  deriving DecidableEq, Repr

/-- The defaults installed by `setupGestureEvents`. -/
def defaultGestureThresholds : GestureThresholds :=
  { minSwipeDistance := 30, maxSwipeTime := 500, minSwipeVelocity := 1/10 }

/-- A classified swipe direction (`'up' | 'down' | 'left' | 'right'`);
`Option Dir` carries the `null` outcome as `none`. -/
inductive Dir
  | up
  | down
  | left
  | right
  deriving DecidableEq, Repr

/-- `getSwipeDirection(deltaX, deltaY)` (lines 258-272). -/
def getSwipeDirection (t : GestureThresholds) (deltaX deltaY : ℚ) :
    Option Dir :=
  let absX := |deltaX|
  let absY := |deltaY|
  if absX < t.minSwipeDistance ∧ absY < t.minSwipeDistance then none
  else if absX > absY then some (if deltaX > 0 then Dir.right else Dir.left)
  else some (if deltaY > 0 then Dir.down else Dir.up)

/-- The swipe data computed at `touchend` (lines 122-137): displacement,
Euclidean distance and duration. -/
structure Swipe where
  deltaX : ℚ
  deltaY : ℚ
  distance : ℚ
  duration : ℚ
  deriving DecidableEq, Repr

/-- `isValidSwipe(swipeData)` (lines 274-294): reject when the distance is
below the minimum, when the duration exceeds the maximum, or when the
velocity `distance / duration` is below the minimum; otherwise accept. -/
def isValidSwipe (t : GestureThresholds) (sw : Swipe) : Bool :=
  if sw.distance < t.minSwipeDistance then false
  else if sw.duration > t.maxSwipeTime then false
  else if sw.distance / sw.duration < t.minSwipeVelocity then false
  else true

/-! Helper lemmas shared between several theorems. -/

/-- The tier an evaluation step ends in is exactly what `adjustQuality`
computes. -/
lemma evalStep_qualityLevel (avg : Option ℚ) (s : GovState) :
    (evalStep avg s).qualityLevel = adjustQuality avg s.qualityLevel := by
  simp only [evalStep, adjustQualityStep]
  split <;> rfl

/-- An evaluation step fires `notifyCallbacks` once when the tier is
unchanged (the unconditional call in `monitor`) and twice when it changes
(`applyQualitySettings` inside `adjustQuality`, then the call in
`monitor`). -/
lemma evalStep_notifications (avg : Option ℚ) (s : GovState) :
    (evalStep avg s).notifications =
      s.notifications +
        (if adjustQuality avg s.qualityLevel = s.qualityLevel then 1 else 2) := by
  simp only [evalStep, adjustQualityStep]
  split_ifs with h1 h2 <;> simp_all

/-- Pointwise equality of the code transition and the spec transition. -/
lemma adjustQuality_eq_specAdjust (a : ℚ) (q : Quality) :
    adjustQuality (some a) q = specAdjust a q := by
  cases q <;>
    simp only [adjustQuality, specAdjust, tierDown, tierUp] <;>
    split_ifs <;>
    simp_all <;>
    linarith

/-- C2. One governor evaluation moves the tier down exactly one level when
avgFPS < 45 (high→medium, medium→low, low stays), up exactly one level
when avgFPS > 55 (low→medium, medium→high, high stays), and leaves it
unchanged in the hysteresis band [45, 55]; in particular from high an
evaluation at avgFPS = 40 yields medium and a further evaluation at 40
yields low. -/
theorem governor_single_step_hysteresis :
    (∀ (a : ℚ) (s : GovState),
      (evalStep (some a) s).qualityLevel = specAdjust a s.qualityLevel)
    ∧ (evalStep (some 40) { qualityLevel := Quality.high, notifications := 0 }).qualityLevel
        = Quality.medium
    ∧ (evalStep (some 40)
        (evalStep (some 40) { qualityLevel := Quality.high, notifications := 0 })).qualityLevel
        = Quality.low := by
  have hmain : ∀ (a : ℚ) (s : GovState),
      (evalStep (some a) s).qualityLevel = specAdjust a s.qualityLevel := by
    intro a s
    rw [evalStep_qualityLevel, adjustQuality_eq_specAdjust]
  refine ⟨hmain, ?_, ?_⟩
  · rw [hmain]
    norm_num [specAdjust, tierDown]
  · rw [hmain, hmain]
    norm_num [specAdjust, tierDown]

/-- C4, counterexample. An evaluation at avgFPS = 50 from tier medium
leaves the tier unchanged and nevertheless delivers one
performance-change notification (the unconditional `notifyCallbacks()` in
`monitor`), contradicting the claim that a no-change evaluation publishes
nothing. -/
theorem evaluation_notifies_without_tier_change :
    (evalStep (some 50) { qualityLevel := Quality.medium, notifications := 0 }).qualityLevel
      = Quality.medium
    ∧ (evalStep (some 50) { qualityLevel := Quality.medium, notifications := 0 }).notifications
      = 1 := by
  constructor
  · rw [evalStep_qualityLevel]
    norm_num [adjustQuality]
  · rw [evalStep_notifications]
    norm_num [adjustQuality]

/-- C4, amended. Every evaluation step notifies the subscribers: exactly
once when the tier is unchanged, and exactly twice when the tier changes
(once from `applyQualitySettings` inside `adjustQuality` and once from the
unconditional call in `monitor`); the resulting tier is the
`adjustQuality` transition. -/
theorem evaluation_notification_count (avg : Option ℚ) (s : GovState) :
    (evalStep avg s).qualityLevel = adjustQuality avg s.qualityLevel
    ∧ (evalStep avg s).notifications =
        s.notifications +
          (if adjustQuality avg s.qualityLevel = s.qualityLevel then 1 else 2) :=
  ⟨evalStep_qualityLevel avg s, evalStep_notifications avg s⟩

/-- C5, counterexample. Averaging an empty sample buffer divides 0 by 0,
which is NaN in JavaScript (modelled as `none`); it does not fall back to
the target FPS constant. -/
theorem empty_average_is_nan_not_target :
    jsAverage ([] : List ℚ) = none ∧ (none : Option ℚ) ≠ some targetFPS := by
  constructor
  · rfl
  · simp

/-- C5, amended. Averaging an empty buffer yields NaN (`none`), not the
target FPS; a NaN average forces no tier change (NaN comparisons are
false, so `adjustQuality` leaves the tier alone); and during monitoring
the buffer is never empty when the average is taken, because `monitor`
pushes a sample before averaging, so `record` always leaves a non-empty
buffer. -/
theorem empty_buffer_behaviour :
    jsAverage ([] : List ℚ) = none
    ∧ (∀ q : Quality, adjustQuality none q = q)
    ∧ (∀ (h : List ℚ) (f : ℚ), 0 < (record h f).length) := by
  refine ⟨rfl, fun q => rfl, ?_⟩
  intro h f
  simp only [record, maxHistoryLength]
  split <;> simp_all <;> omega

/-- Starting from any buffer holding at most 60 samples, a sequence of
recordings leaves exactly the suffix of the concatenated stream that fits
in the 60-slot window. -/
lemma recordAll_drop (samples : List ℚ) :
    ∀ h : List ℚ, h.length ≤ 60 →
      recordAll h samples = (h ++ samples).drop (h.length + samples.length - 60) := by
  induction samples with
  | nil =>
      intro h hh
      simp only [recordAll, List.foldl_nil, List.append_nil, List.length_nil,
        Nat.add_zero]
      rw [Nat.sub_eq_zero_of_le hh, List.drop_zero]
  | cons f rest ih =>
      intro h hh
      have hstep : recordAll h (f :: rest) = recordAll (record h f) rest := rfl
      rw [hstep]
      by_cases hlen : h.length + 1 > 60
      · have h60 : h.length = 60 := by omega
        have hr : record h f = (h ++ [f]).tail := by
          simp only [record, maxHistoryLength]
          rw [if_pos]
          simp [h60]
        have hrlen : (record h f).length = 60 := by
          rw [hr]
          simp [h60]
        have hrlen2 : (h ++ [f]).tail.length = 60 := by
          simp [h60]
        rw [ih (record h f) (le_of_eq hrlen), hr, hrlen2]
        have hidx : 60 + rest.length - 60 = rest.length := by omega
        rw [hidx]
        have htail : (h ++ [f]).tail = h.drop 1 ++ [f] := by
          rw [← List.drop_one, List.drop_append_of_le_length (by omega)]
        rw [htail, List.append_assoc, List.singleton_append]
        have hidx2 : h.length + (f :: rest).length - 60 = rest.length + 1 := by
          simp only [List.length_cons]
          omega
        rw [hidx2]
        have hsplit : (h ++ f :: rest).drop (rest.length + 1)
            = ((h ++ f :: rest).drop 1).drop rest.length := by
          rw [List.drop_drop]
          congr 1
          omega
        rw [hsplit]
        have hinner : List.drop 1 (h ++ f :: rest) = List.drop 1 h ++ f :: rest :=
          List.drop_append_of_le_length (by omega)
        rw [hinner]
      · have hr : record h f = h ++ [f] := by
          simp only [record, maxHistoryLength]
          rw [if_neg]
          simp
          omega
        have hrlen : (record h f).length = h.length + 1 := by
          rw [hr]; simp
        have hrlen2 : (h ++ [f]).length = h.length + 1 := by simp
        rw [ih (record h f) (by omega), hr, hrlen2, List.append_assoc,
          List.singleton_append]
        congr 1
        simp only [List.length_cons]
        omega

/-- C3. For every sequence of recorded samples starting from the empty
buffer, the buffer length never exceeds 60 at any point of the sequence;
after all recordings the buffer is exactly the stream with all but the
last 60 samples dropped (so for more than 60 recordings, the 60 most
recent in recording order, oldest evicted first), and the computed
average is the arithmetic mean of exactly those samples. -/
theorem bounded_buffer_recent_average (samples : List ℚ) :
    (∀ k : ℕ, (recordAll [] (samples.take k)).length ≤ 60)
    ∧ recordAll [] samples = samples.drop (samples.length - 60)
    ∧ jsAverage (recordAll [] samples)
        = jsAverage (samples.drop (samples.length - 60)) := by
  have hmain : ∀ l : List ℚ, recordAll [] l = l.drop (l.length - 60) := by
    intro l
    have h := recordAll_drop l [] (by simp)
    simpa using h
  refine ⟨?_, hmain samples, by rw [hmain samples]⟩
  intro k
  rw [hmain (samples.take k)]
  simp only [List.length_drop]
  omega

/-- When every callback appends its own identity to a shared log —
whether it then returns normally or throws — the caught dispatch loop
runs them all in order: the log grows by exactly the dispatched list. -/
lemma runCallbacksCaught_log (run : ℕ → List ℕ → CallResult (List ℕ))
    (hrun : ∀ cb s, (run cb s).state = s ++ [cb]) :
    ∀ (cbs : List ℕ) (s : List ℕ), runCallbacksCaught run cbs s = s ++ cbs := by
  intro cbs
  induction cbs with
  | nil => intro s; simp [runCallbacksCaught]
  | cons cb rest ih =>
      intro s
      have hstep : runCallbacksCaught run (cb :: rest) s
          = runCallbacksCaught run rest ((run cb s).state) := by
        cases hr : run cb s with
        | ok s2 => simp [runCallbacksCaught, hr, CallResult.state]
        | thrown s2 => simp [runCallbacksCaught, hr, CallResult.state]
      rw [hstep, hrun cb s, ih (s ++ [cb]), List.append_assoc,
        List.singleton_append]

/-- C6. Dispatch isolation: if every registered callback records its own
invocation in the shared log regardless of whether it throws (the `hrun`
hypothesis says each invocation appends the callback's identity and the
`CallResult` may be `thrown`), then publishing an event invokes every
currently-registered callback for that kind, in registration order — an
earlier throw is caught inside the loop, aborts nothing, and never
reaches the publisher (`triggerCallback` returns the final log, not an
exception). -/
theorem dispatch_isolation (reg : EventKind → List ℕ) (ev : EventKind)
    (run : ℕ → List ℕ → CallResult (List ℕ))
    (hrun : ∀ cb s, (run cb s).state = s ++ [cb]) :
    triggerCallback reg ev run [] = reg ev := by
  unfold triggerCallback
  rw [runCallbacksCaught_log run hrun]
  simp

/-- A concrete registry with two subscribers for every kind. -/
def regW : EventKind → List ℕ := fun _ => [0, 1]

/-- Concrete callback behaviour in which callback 0 throws after logging
its invocation and every other callback returns normally. -/
def runW : ℕ → List ℕ → CallResult (List ℕ) :=
  fun cb s =>
    if cb = 0 then CallResult.thrown (s ++ [cb])
    else CallResult.ok (s ++ [cb])

/-- Witness for C6: with callback 0 throwing, publishing still invokes
both subscribers, in order. -/
theorem dispatch_isolation_witness :
    triggerCallback regW "keydown" runW [] = [0, 1] := by
  have h := dispatch_isolation regW "keydown" runW
    (by intro cb s; unfold runW; split <;> rfl)
  exact h.trans rfl

/-- C7. Unsubscribe correctness: after running the unsubscribe closure
returned by `on` (whose body is `off`), the removed callback is no longer
registered for the kind, every other subscriber of the kind and every
other kind is untouched, a subsequent publish of the kind never invokes
the removed callback, and running the same unsubscribe again is a no-op
(idempotent, even when the kind has no subscribers left). -/
theorem unsubscribe_correct (reg : EventKind → List ℕ) (ev : EventKind)
    (cb : ℕ) :
    cb ∉ off reg ev cb ev
    ∧ (∀ c : ℕ, c ≠ cb → (c ∈ off reg ev cb ev ↔ c ∈ reg ev))
    ∧ (∀ e : EventKind, e ≠ ev → off reg ev cb e = reg e)
    ∧ (∀ run : ℕ → List ℕ → CallResult (List ℕ),
        (∀ c s, (run c s).state = s ++ [c]) →
          cb ∉ triggerCallback (off reg ev cb) ev run [])
    ∧ off (off reg ev cb) ev cb = off reg ev cb := by
  refine ⟨?_, ?_, ?_, ?_, ?_⟩
  · simp [off, setDelete, List.mem_filter]
  · intro c hc
    simp [off, setDelete, List.mem_filter, hc]
  · intro e he
    simp [off, he]
  · intro run hrun
    unfold triggerCallback
    rw [runCallbacksCaught_log run hrun]
    simp [off, setDelete, List.mem_filter]
  · funext e
    by_cases he : e = ev
    · subst he
      simp only [off, if_pos]
      apply List.filter_eq_self.mpr
      intro a ha
      exact (List.mem_filter.mp ha).2
    · simp [off, he]

/-- A concrete registry with subscribers 1 and 2 for every kind. -/
def reg2W : EventKind → List ℕ := fun _ => [1, 2]

/-- Witness for C7: unsubscribing callback 1 from `keyup` leaves 2
subscribed, leaves other kinds alone, and a publish of `keyup` (with a
throwing/logging behaviour) never invokes callback 1. -/
theorem unsubscribe_correct_witness :
    (2 ∈ off reg2W "keyup" 1 "keyup" ↔ 2 ∈ reg2W "keyup")
    ∧ off reg2W "keyup" 1 "touchend" = reg2W "touchend"
    ∧ 1 ∉ triggerCallback (off reg2W "keyup" 1) "keyup" runW [] :=
  ⟨(unsubscribe_correct reg2W "keyup" 1).2.1 2 (by decide),
   (unsubscribe_correct reg2W "keyup" 1).2.2.1 "touchend" (by decide),
   (unsubscribe_correct reg2W "keyup" 1).2.2.2.1 runW
     (by intro c s; unfold runW; split <;> rfl)⟩

/-- C10. Duplicate subscription is idempotent: subscribing the same
callback to the same kind a second time changes nothing (the `Set`
already holds it), the callback is registered exactly once — so one
publish invokes it exactly once — and a single unsubscribe removes it
entirely. The hypothesis is the `Set` representation invariant: the
callback occurs at most once in the stored list. -/
theorem duplicate_subscribe_idempotent (reg : EventKind → List ℕ)
    (ev : EventKind) (cb : ℕ) (hdup : (reg ev).count cb ≤ 1) :
    onEvent (onEvent reg ev cb) ev cb = onEvent reg ev cb
    ∧ ((onEvent reg ev cb) ev).count cb = 1
    ∧ cb ∉ off (onEvent (onEvent reg ev cb) ev cb) ev cb ev := by
  refine ⟨?_, ?_, ?_⟩
  · funext e
    by_cases he : e = ev
    · subst he
      simp only [onEvent, if_pos]
      unfold setAdd
      split_ifs with h1 h2 <;> simp_all
    · simp [onEvent, he]
  · simp only [onEvent, if_pos]
    unfold setAdd
    split_ifs with h1
    · have hpos : 0 < (reg ev).count cb := List.count_pos_iff.mpr h1
      omega
    · have hz : (reg ev).count cb = 0 := List.count_eq_zero.mpr h1
      simp [List.count_append, hz]
  · simp [off, setDelete, List.mem_filter]

/-- A registry with no subscribers at all. -/
def emptyReg : EventKind → List ℕ := fun _ => []

/-- Witness for C10: subscribing callback 5 to `touchend` twice leaves it
registered exactly once, and one unsubscribe removes it. -/
theorem duplicate_subscribe_idempotent_witness :
    ((onEvent emptyReg "touchend" 5) "touchend").count 5 = 1
    ∧ 5 ∉ off (onEvent (onEvent emptyReg "touchend" 5) "touchend" 5)
        "touchend" 5 "touchend" :=
  ⟨(duplicate_subscribe_idempotent emptyReg "touchend" 5 (by decide)).2.1,
   (duplicate_subscribe_idempotent emptyReg "touchend" 5 (by decide)).2.2⟩

/-- C1, counterexample. On an exact tie |deltaX| = |deltaY| at or above
the threshold, `getSwipeDirection` compares with the strict `absX > absY`
and therefore falls into the vertical branch: for deltaX = deltaY = 40 the
code classifies `down`, not the `right` the claim requires. -/
theorem swipe_tie_is_vertical :
    getSwipeDirection defaultGestureThresholds 40 40 = some Dir.down
    ∧ some Dir.down ≠ some Dir.right := by
  constructor
  · have habs : |(40 : ℚ)| = 40 := abs_of_nonneg (by norm_num)
    simp only [getSwipeDirection, defaultGestureThresholds, habs]
    norm_num
  · simp

/-- C1, amended. The classifier returns `none` exactly when both
|deltaX| < minDistance and |deltaY| < minDistance (default 30); otherwise
it returns a horizontal direction (right when deltaX > 0, else left) when
|deltaX| > |deltaY| — strictly — and a vertical direction (down when
deltaY > 0, else up) when |deltaX| ≤ |deltaY|, so an exact tie is
classified vertically. -/
theorem swipe_classification (dx dy : ℚ) :
    (getSwipeDirection defaultGestureThresholds dx dy = none ↔
      |dx| < 30 ∧ |dy| < 30)
    ∧ (¬(|dx| < 30 ∧ |dy| < 30) → |dy| < |dx| →
        getSwipeDirection defaultGestureThresholds dx dy
          = some (if 0 < dx then Dir.right else Dir.left))
    ∧ (¬(|dx| < 30 ∧ |dy| < 30) → |dx| ≤ |dy| →
        getSwipeDirection defaultGestureThresholds dx dy
          = some (if 0 < dy then Dir.down else Dir.up)) := by
  simp only [getSwipeDirection, defaultGestureThresholds]
  split_ifs with h1 h2 <;> simp_all

/-- Witness for C1 (amended): deltaX = 40, deltaY = 2 is above threshold
with |deltaX| > |deltaY|, and is classified `right`. -/
theorem swipe_classification_witness :
    getSwipeDirection defaultGestureThresholds 40 2 = some Dir.right := by
  have h40 : |(40 : ℚ)| = 40 := abs_of_nonneg (by norm_num)
  have h2 : |(2 : ℚ)| = 2 := abs_of_nonneg (by norm_num)
  have h := (swipe_classification 40 2).2.1
    (by rw [h40, h2]; norm_num) (by rw [h40, h2]; norm_num)
  rw [if_pos (by norm_num : (0 : ℚ) < 40)] at h
  exact h

/-- C8. With the default thresholds, a swipe of positive duration is
valid exactly when its distance is at least 30, its duration at most 500
and its velocity distance/duration at least 1/10; in particular the
swipe with distance 190 and duration 600 is rejected (duration exceeds
the maximum) even though its distance is acceptable. The positivity
hypothesis marks where the rational model of `distance / duration`
coincides with the JavaScript arithmetic. -/
theorem valid_swipe_characterisation :
    (∀ sw : Swipe, 0 < sw.duration →
      (isValidSwipe defaultGestureThresholds sw = true ↔
        30 ≤ sw.distance ∧ sw.duration ≤ 500
          ∧ (1 : ℚ) / 10 ≤ sw.distance / sw.duration))
    ∧ isValidSwipe defaultGestureThresholds
        { deltaX := 0, deltaY := 190, distance := 190, duration := 600 }
        = false := by
  constructor
  · intro sw hdur
    simp only [isValidSwipe, defaultGestureThresholds]
    split_ifs with h1 h2 h3
    · simp only [Bool.false_eq_true, false_iff]
      intro hc
      linarith [hc.1]
    · simp only [Bool.false_eq_true, false_iff]
      intro hc
      linarith [hc.2.1]
    · simp only [Bool.false_eq_true, false_iff]
      intro hc
      linarith [hc.2.2]
    · simp only [true_iff]
      exact ⟨le_of_not_lt h1, le_of_not_lt h2, le_of_not_lt h3⟩
  · simp only [isValidSwipe, defaultGestureThresholds]
    norm_num

/-- Witness for C8: a 3-4-5 swipe (distance 50, duration 200) is valid. -/
theorem valid_swipe_characterisation_witness :
    isValidSwipe defaultGestureThresholds
      { deltaX := 30, deltaY := 40, distance := 50, duration := 200 }
      = true := by
  have h := (valid_swipe_characterisation.1
    { deltaX := 30, deltaY := 40, distance := 50, duration := 200 }
    (by norm_num)).mpr (by norm_num)
  exact h

/-- C9. The window `blur` handler clears the entire key set in one step:
afterwards every key reads unpressed and the pressed-key list is empty; it
triggers no callback event at all (in particular no `keyup`), and it
leaves the active touch contacts and the subscription registry exactly as
they were. -/
theorem focus_loss_clears_keys (s : InputState) :
    (∀ k : String, isKeyPressed (handleBlur s).1 k = false)
    ∧ getPressedKeys (handleBlur s).1 = []
    ∧ (handleBlur s).1.touches = s.touches
    ∧ (handleBlur s).1.callbacks = s.callbacks
    ∧ (handleBlur s).2 = [] := by
  refine ⟨?_, rfl, rfl, rfl, rfl⟩
  intro k
  rfl

end GitGame
